import Mathlib

/-!
Verification of the annotation-canvas component of the dental-image review
application (`client/src/components/admin/AnnotationCanvas.jsx`).

The development shallowly embeds the component's pure logic:

* `computeCanvasSize` — the canvas-geometry calculation performed in the
  image `onload` handler (two-pass clamp to the 800×600 bounding box,
  then `Math.floor`), over exact rationals;
* `candidateShape` / `handleMouseUp` / `handleUndo` / `handleClear` — the
  gesture state machine maintaining the ordered shape list;
* `handleSave` — the save gate (empty-list check, canvas-size check,
  data-URL minimum-length check) and the `annotationData` record it builds;
* `drawCanvas` — the renderer, modelled as the sequence of 2D-context
  drawing operations it issues.

Pointer coordinates and shape fields are real numbers (the code computes
with `Math.sqrt`, `Math.atan2`, `Math.cos`, `Math.sin`); the geometry
calculation, which only uses field arithmetic and `Math.floor`, is kept
over `ℚ` so that it stays fully executable.
-/

/- ### Canvas geometry (image onload handler) -/

/-- Maximum canvas width, from `const maxWidth = 800`. -/
def maxWidth : ℚ := 800

/-- Maximum canvas height, from `const maxHeight = 600`. -/
def maxHeight : ℚ := 600

/-- The `canvasSize` state record `{ width, height }` (integers: the code
stores `Math.floor` results). -/
structure CanvasSize where
  width : ℤ
  height : ℤ
deriving DecidableEq, Repr

/-- The geometry calculation of the image `onload` handler: clamp the
width to `maxWidth` scaling the height proportionally, then clamp the
resulting height to `maxHeight` scaling the width proportionally, and
floor both components. -/
def computeCanvasSize (naturalWidth naturalHeight : ℚ) : CanvasSize :=
  let wh1 : ℚ × ℚ :=
    if naturalWidth > maxWidth then
      (maxWidth, naturalHeight * maxWidth / naturalWidth)
    else (naturalWidth, naturalHeight)
  let wh2 : ℚ × ℚ :=
    if wh1.2 > maxHeight then (wh1.1 * maxHeight / wh1.2, maxHeight)
    else wh1
  ⟨⌊wh2.1⌋, ⌊wh2.2⌋⟩

/-- The two-pass cascade exactly as the specification words it: first, if
`w > 800`, set `h := h * 800 / w` and `w := 800`; then, on the result, if
`h > 600`, set `w := w * 600 / h` and `h := 600`; finally take floors. -/
def specTwoPassGeometry (w h : ℚ) : ℤ × ℤ :=
  let p : ℚ × ℚ := if w > 800 then ((800 : ℚ), h * 800 / w) else (w, h)
  let q : ℚ × ℚ := if p.2 > 600 then (p.1 * 600 / p.2, (600 : ℚ)) else p
  (⌊q.1⌋, ⌊q.2⌋)

/- ### Shapes and the gesture state machine -/

/-- A pointer position in canvas-pixel space, as produced by
`getMousePos`. -/
structure Pos where
  x : ℝ
  y : ℝ

/-- The tagged union of shape records built in `handleMouseUp`. -/
inductive Shape
  | rectangle (x y width height : ℝ) (color : String)
  | circle (x y radius : ℝ) (color : String)
  | arrow (startX startY endX endY : ℝ) (color : String)

/-- The `color` field common to the three shape variants. -/
def Shape.color : Shape → String
  | .rectangle _ _ _ _ c => c
  | .circle _ _ _ c => c
  | .arrow _ _ _ _ c => c

/-- The minimum-size filter applied in `handleMouseUp` before a shape is
committed: `width > 5 && height > 5` for rectangles, `radius > 5` for
circles, `distance > 10` for arrows (the arrow's length recomputed from
its stored endpoints). -/
def Shape.passesSizeFilter : Shape → Prop
  | .rectangle _ _ width height _ => width > 5 ∧ height > 5
  | .circle _ _ radius _ => radius > 5
  | .arrow startX startY endX endY _ =>
      Real.sqrt ((endX - startX) ^ 2 + (endY - startY) ^ 2) > 10

/-- The tool selection `currentTool ∈ {rectangle, circle, arrow}`. -/
inductive Tool
  | rectangle
  | circle
  | arrow
deriving DecidableEq

/-- The component state relevant to the gesture logic: `isDrawing`,
`currentTool`, `currentColor`, `annotations` and `startPos`. -/
structure EditorState where
  isDrawing : Bool
  currentTool : Tool
  currentColor : String
  annotations : List Shape
  startPos : Pos

noncomputable section

/-- The candidate-shape computation of `handleMouseUp`: from the recorded
start position, the pointer-up position, and the tool and color selected
at pointer-up time, either a shape passing the minimum-size filter or
nothing. -/
def candidateShape (currentTool : Tool) (startPos pos : Pos)
    (currentColor : String) : Option Shape :=
  match currentTool with
  | .rectangle =>
      let width := |pos.x - startPos.x|
      let height := |pos.y - startPos.y|
      if width > 5 ∧ height > 5 then
        some (.rectangle (min startPos.x pos.x) (min startPos.y pos.y)
          width height currentColor)
      else none
  | .circle =>
      let radius := Real.sqrt ((pos.x - startPos.x) ^ 2 + (pos.y - startPos.y) ^ 2)
      if radius > 5 then
        some (.circle startPos.x startPos.y radius currentColor)
      else none
  | .arrow =>
      let distance := Real.sqrt ((pos.x - startPos.x) ^ 2 + (pos.y - startPos.y) ^ 2)
      if distance > 10 then
        some (.arrow startPos.x startPos.y pos.x pos.y currentColor)
      else none

/-- `handleMouseDown`: ignored when disabled; otherwise records the start
position and enters the drawing state. -/
def handleMouseDown (disabled : Bool) (s : EditorState) (pos : Pos) : EditorState :=
  if disabled then s
  else { s with isDrawing := true, startPos := pos }

/-- `handleMouseUp`: ignored unless drawing and not disabled; otherwise
appends the candidate shape (when it passes the size filter) and always
leaves the drawing state. -/
def handleMouseUp (disabled : Bool) (s : EditorState) (pos : Pos) : EditorState :=
  if !s.isDrawing || disabled then s
  else
    match candidateShape s.currentTool s.startPos pos s.currentColor with
    | some newShape =>
        { s with annotations := s.annotations ++ [newShape], isDrawing := false }
    | none => { s with isDrawing := false }

/-- `handleUndo`: when the list is non-empty, drop its last element
(`annotations.slice(0, -1)`); otherwise do nothing. -/
def handleUndo (s : EditorState) : EditorState :=
  if s.annotations.length > 0 then
    { s with annotations := s.annotations.dropLast }
  else s

/-- `handleClear`: replace the shape list with the empty list. -/
def handleClear (s : EditorState) : EditorState :=
  { s with annotations := [] }

/-- Tool-selection button: `setCurrentTool(tool.id)`. -/
def setCurrentTool (s : EditorState) (t : Tool) : EditorState :=
  { s with currentTool := t }

/-- Color-selection button: `setCurrentColor(color)`. -/
def setCurrentColor (s : EditorState) (c : String) : EditorState :=
  { s with currentColor := c }

/-- The initial state of the component: not drawing, rectangle tool, red
color, shape list seeded from `existingAnnotations?.shapes || []`. -/
def initState (existingShapes : Option (List Shape)) : EditorState :=
  { isDrawing := false
    currentTool := .rectangle
    currentColor := "#FF0000"
    annotations := existingShapes.getD []
    startPos := ⟨0, 0⟩ }

/-- The events the component reacts to. -/
inductive Event
  | mouseDown (pos : Pos)
  | mouseUp (pos : Pos)
  | undo
  | clear
  | setTool (t : Tool)
  | setColor (c : String)

/-- One step of the editor: dispatch an event to its handler. -/
def step (disabled : Bool) (s : EditorState) : Event → EditorState
  | .mouseDown pos => handleMouseDown disabled s pos
  | .mouseUp pos => handleMouseUp disabled s pos
  | .undo => handleUndo s
  | .clear => handleClear s
  | .setTool t => setCurrentTool s t
  | .setColor c => setCurrentColor s c

/- ### Save (export) -/

/-- The `annotationData` record built by `handleSave`. -/
structure AnnotationData where
  shapes : List Shape
  timestamp : String
  imageSize : CanvasSize
  totalAnnotations : Nat

/-- The observable outcome of a save request: a user-visible alert, or a
call of the `onSave` callback with the annotation record and the
rasterized data URL. -/
inductive SaveResult
  | alert (msg : String)
  | saved (data : AnnotationData) (annotatedImageDataUrl : String)

/-- `handleSave`, with its ambient inputs made explicit: whether the
canvas ref is non-null, the `canvasSize` state, the current timestamp,
and the data URL produced by `canvas.toDataURL`.  Returns the (unchanged)
editor state paired with the observable outcome. -/
def handleSave (s : EditorState) (hasCanvas : Bool) (canvasSize : CanvasSize)
    (timestamp annotatedImageDataUrl : String) : EditorState × SaveResult :=
  if hasCanvas = false ∨ s.annotations.length = 0 then
    (s, .alert "Please add some annotations before saving")
  else if canvasSize.width = 0 ∨ canvasSize.height = 0 then
    (s, .alert "Canvas is not properly initialized. Please try refreshing the page.")
  else if annotatedImageDataUrl.length < 1000 then
    (s, .alert "Error: Canvas image data seems invalid. Please try drawing some annotations and try again.")
  else
    (s, .saved
      { shapes := s.annotations
        timestamp := timestamp
        imageSize := canvasSize
        totalAnnotations := s.annotations.length }
      annotatedImageDataUrl)

/- ### Rendering (drawCanvas) -/

/-- An opaque handle for the loaded base image. -/
structure Img where
  name : String

/-- The 2D-context operations `drawCanvas` can issue.  `fill` is part of
the canvas API but is never emitted by the renderer. -/
inductive DrawOp
  | setCanvasSize (width height : ℤ)
  | clearRect (x y w h : ℝ)
  | drawImage (img : Img) (x y w h : ℝ)
  | setStrokeStyle (color : String)
  | setLineWidth (w : ℝ)
  | setLineCap (cap : String)
  | setLineJoin (join : String)
  | beginPath
  | rect (x y w h : ℝ)
  | arc (x y radius startAngle endAngle : ℝ)
  | moveTo (x y : ℝ)
  | lineTo (x y : ℝ)
  | stroke
  | fill

/-- `Math.atan2 y x`, embedded as the argument of the complex number
`x + y·i` (same range `(-π, π]` and same conventions, in particular
`atan2 0 x = 0` for `x > 0`). -/
def atan2 (y x : ℝ) : ℝ := Complex.arg ⟨x, y⟩

/-- The path operations issued for one shape: a rectangle path, a full
circle arc, or an arrow (line plus the two arrowhead segments computed
from `Math.atan2`, `Math.cos`, `Math.sin`, head length 15, offsets
±π/6). -/
def pathOps : Shape → List DrawOp
  | .rectangle x y w h _ => [.rect x y w h]
  | .circle x y r _ => [.arc x y r 0 (2 * Real.pi)]
  | .arrow startX startY endX endY _ =>
      let angle := atan2 (endY - startY) (endX - startX)
      let headLength : ℝ := 15
      [.moveTo startX startY, .lineTo endX endY,
       .moveTo endX endY,
       .lineTo (endX - headLength * Real.cos (angle - Real.pi / 6))
               (endY - headLength * Real.sin (angle - Real.pi / 6)),
       .moveTo endX endY,
       .lineTo (endX - headLength * Real.cos (angle + Real.pi / 6))
               (endY - headLength * Real.sin (angle + Real.pi / 6))]

/-- The operations issued for one shape inside the `shapes.forEach` loop:
stroke style from the shape's color, 3px line width, round caps and
joins, begin a path, the shape's path, stroke. -/
def shapeOps (shape : Shape) : List DrawOp :=
  [.setStrokeStyle shape.color, .setLineWidth 3, .setLineCap "round",
   .setLineJoin "round", .beginPath]
  ++ pathOps shape ++ [.stroke]

/-- `drawCanvas`: set the canvas size, clear, draw the base image scaled
to the canvas, then stroke each shape in list order. -/
def drawCanvas (canvasSize : CanvasSize) (img : Img) (shapes : List Shape) :
    List DrawOp :=
  .setCanvasSize canvasSize.width canvasSize.height ::
  .clearRect 0 0 (canvasSize.width : ℝ) (canvasSize.height : ℝ) ::
  .drawImage img 0 0 (canvasSize.width : ℝ) (canvasSize.height : ℝ) ::
  shapes.flatMap shapeOps

/-- Whether an operation list contains a `fill`. -/
def hasFillOp (ops : List DrawOp) : Bool :=
  ops.any fun op => match op with
    | .fill => true
    | _ => false

/- ### Concrete sample data for the witnesses -/

/-- A data URL of exactly the minimum accepted length (1000 bytes). -/
def longUrl : String := String.mk (List.replicate 1000 'a')

/-- A concrete rectangle: the shape of the spec's worked example. -/
def sampleRect : Shape := .rectangle 10 10 40 70 "#FF0000"

/-- A concrete circle of radius 10. -/
def sampleCircle : Shape := .circle 0 0 10 "#00FF00"

/-- A concrete horizontal arrow of length 100. -/
def sampleArrow : Shape := .arrow 0 0 100 0 "#0000FF"

/-- A state ready to save: one committed rectangle, idle. -/
def saveReadyState : EditorState :=
  ⟨false, .rectangle, "#FF0000", [sampleRect], ⟨0, 0⟩⟩

/-- A state with three committed shapes, for the save/undo/save
scenario. -/
def undoDemoState : EditorState :=
  ⟨false, .rectangle, "#FF0000", [sampleRect, sampleCircle, sampleArrow], ⟨0, 0⟩⟩

/-- A state in the middle of a rectangle gesture started at (10,10). -/
def drawingState : EditorState :=
  ⟨true, .rectangle, "#FF0000", [], ⟨10, 10⟩⟩

end

/- ### Theorems -/

/-- Any shape produced by `candidateShape` has passed the minimum-size
filter: the guards of the three branches are exactly the filter. -/
theorem candidateShape_passesSizeFilter {t : Tool} {sp p : Pos} {c : String}
    {sh : Shape} (h : candidateShape t sp p c = some sh) :
    sh.passesSizeFilter := by
  cases t <;> simp only [candidateShape] at h <;> split at h <;>
    first
      | (injection h with h; subst h;
         simp only [Shape.passesSizeFilter]; assumption)
      | injection h

/-- C1: the editor's canvas geometry is exactly the two-pass cascade —
first clamp the width to 800 (scaling the height), then clamp the
resulting height to 600 (scaling the width), then floor both — for every
natural image size. -/
theorem computeCanvasSize_is_two_pass_cascade (w h : ℚ) :
    ((computeCanvasSize w h).width, (computeCanvasSize w h).height) =
      specTwoPassGeometry w h := by
  simp only [computeCanvasSize, specTwoPassGeometry, maxWidth, maxHeight]

/-- C7: for images no larger than the 800×600 bounding box, the computed
canvas size equals the natural size exactly — the geometry never
upscales. -/
theorem computeCanvasSize_no_upscale (w h : ℕ) (hw : w ≤ 800) (hh : h ≤ 600) :
    computeCanvasSize w h = ⟨w, h⟩ := by
  have hw' : ¬ ((w : ℚ) > maxWidth) := by
    simp only [maxWidth, not_lt]
    exact_mod_cast hw
  have hh' : ¬ ((h : ℚ) > maxHeight) := by
    simp only [maxHeight, not_lt]
    exact_mod_cast hh
  simp only [computeCanvasSize, if_neg hw', if_neg hh']
  simp [Int.floor_natCast]

/-- Witness for C7 at a concrete 640×480 image: the canvas keeps the
natural size. -/
theorem computeCanvasSize_no_upscale_witness :
    computeCanvasSize 640 480 = ⟨640, 480⟩ := by
  have h := computeCanvasSize_no_upscale 640 480 (by decide) (by decide)
  simpa using h

/-- C2: the minimum-size filter is an invariant of the shape list: it
holds after every event (pointer-down, pointer-up, undo, clear, tool and
color selection) whenever it held before, it holds for the seeded initial
list whenever the seed satisfies it, and a pointer-up whose candidate
shape fails the filter leaves the list unchanged and returns the editor
to the idle (non-drawing) state. -/
theorem shape_list_size_filter_invariant :
    (∀ (disabled : Bool) (s : EditorState) (e : Event),
        (∀ sh ∈ s.annotations, sh.passesSizeFilter) →
        ∀ sh ∈ (step disabled s e).annotations, sh.passesSizeFilter) ∧
    (∀ existingShapes : Option (List Shape),
        (∀ sh ∈ existingShapes.getD [], sh.passesSizeFilter) →
        ∀ sh ∈ (initState existingShapes).annotations, sh.passesSizeFilter) ∧
    (∀ (s : EditorState) (pos : Pos),
        s.isDrawing = true →
        candidateShape s.currentTool s.startPos pos s.currentColor = none →
        (handleMouseUp false s pos).annotations = s.annotations ∧
        (handleMouseUp false s pos).isDrawing = false) := by
  refine ⟨?_, ?_, ?_⟩
  · intro disabled s e hinv
    cases e with
    | mouseDown pos =>
        simp only [step, handleMouseDown]
        split
        · exact hinv
        · exact hinv
    | mouseUp pos =>
        simp only [step, handleMouseUp]
        split
        · exact hinv
        · cases hcs : candidateShape s.currentTool s.startPos pos s.currentColor with
          | none => simpa using hinv
          | some sh0 =>
              intro sh hm
              simp only [List.mem_append, List.mem_singleton] at hm
              rcases hm with hm | hm
              · exact hinv sh hm
              · subst hm
                exact candidateShape_passesSizeFilter hcs
    | undo =>
        simp only [step, handleUndo]
        split
        · intro sh hm
          exact hinv sh (List.dropLast_subset _ hm)
        · exact hinv
    | clear => simp [step, handleClear]
    | setTool t => exact hinv
    | setColor c => exact hinv
  · intro existingShapes hseed
    exact hseed
  · intro s pos hdraw hnone
    simp only [handleMouseUp, hdraw, Bool.not_true, Bool.false_or]
    rw [hnone]
    exact ⟨rfl, rfl⟩

/-- Witness for C2: the spec's degenerate gesture — pointer-down at
(10,10), pointer-up at (12,12) with the rectangle tool — adds no shape
(the empty list stays empty) and returns the editor to idle. -/
theorem shape_list_size_filter_invariant_witness :
    (handleMouseUp false drawingState ⟨12, 12⟩).annotations = [] ∧
    (handleMouseUp false drawingState ⟨12, 12⟩).isDrawing = false := by
  have h := shape_list_size_filter_invariant.2.2 drawingState ⟨12, 12⟩ rfl ?hnone
  · exact h
  case hnone =>
    simp only [drawingState, candidateShape]
    rw [if_neg]
    rw [show (⟨12, 12⟩ : Pos).x - (⟨10, 10⟩ : Pos).x = 2 from by norm_num]
    rw [show |(2 : ℝ)| = 2 from abs_two]
    norm_num

/-- C4: a rectangle gesture that passes the size filter commits the shape
with top-left corner at the componentwise minimum of the two positions,
width and height the absolute coordinate differences, and the currently
selected color, appended at the end of the list. -/
theorem rectangle_gesture_commits_normalized_shape (s : EditorState) (pos : Pos)
    (hdraw : s.isDrawing = true) (htool : s.currentTool = .rectangle)
    (hw : |pos.x - s.startPos.x| > 5) (hh : |pos.y - s.startPos.y| > 5) :
    (handleMouseUp false s pos).annotations =
      s.annotations ++
        [Shape.rectangle (min s.startPos.x pos.x) (min s.startPos.y pos.y)
          (|pos.x - s.startPos.x|) (|pos.y - s.startPos.y|) s.currentColor] := by
  simp only [handleMouseUp, hdraw, Bool.not_true, Bool.false_or]
  rw [if_neg (by simp : ¬ false = true)]
  rw [htool]
  simp only [candidateShape]
  rw [if_pos (show |pos.x - s.startPos.x| > 5 ∧ |pos.y - s.startPos.y| > 5 from ⟨hw, hh⟩)]

/-- Witness for C4: the spec's worked example — pointer-down (10,10),
pointer-up (50,80), color #FF0000 — commits exactly
`rectangle 10 10 40 70 #FF0000`. -/
theorem rectangle_gesture_commits_normalized_shape_witness :
    (handleMouseUp false drawingState ⟨50, 80⟩).annotations = [sampleRect] := by
  have h40 : |(⟨50, 80⟩ : Pos).x - drawingState.startPos.x| = 40 := by
    rw [show (⟨50, 80⟩ : Pos).x - drawingState.startPos.x = 40 from by
      simp only [drawingState]; norm_num]
    exact abs_of_nonneg (by norm_num)
  have h70 : |(⟨50, 80⟩ : Pos).y - drawingState.startPos.y| = 70 := by
    rw [show (⟨50, 80⟩ : Pos).y - drawingState.startPos.y = 70 from by
      simp only [drawingState]; norm_num]
    exact abs_of_nonneg (by norm_num)
  have h := rectangle_gesture_commits_normalized_shape drawingState ⟨50, 80⟩
    rfl rfl (by rw [h40]; norm_num) (by rw [h70]; norm_num)
  rw [h, h40, h70]
  simp only [drawingState, sampleRect, List.nil_append]
  norm_num [min_def]

/-- C9: pointer-down captures only the start position; the committed
shape's kind and color come from the tool and color selected at
pointer-up time.  Changing tool and color mid-gesture leaves the start
position and drawing flag untouched, and the pointer-up commit is built
from the new tool and new color together with the recorded start
position. -/
theorem tool_color_read_at_pointer_up (s : EditorState) (t : Tool) (c : String)
    (pos newStart : Pos) (hdraw : s.isDrawing = true) :
    handleMouseDown false s newStart = { s with isDrawing := true, startPos := newStart } ∧
    (setCurrentColor (setCurrentTool s t) c).startPos = s.startPos ∧
    (setCurrentColor (setCurrentTool s t) c).isDrawing = s.isDrawing ∧
    (handleMouseUp false (setCurrentColor (setCurrentTool s t) c) pos).annotations =
      s.annotations ++ (candidateShape t s.startPos pos c).toList := by
  refine ⟨rfl, rfl, rfl, ?_⟩
  simp only [handleMouseUp, setCurrentColor, setCurrentTool, hdraw,
    Bool.not_true, Bool.false_or]
  rw [if_neg (by simp : ¬ false = true)]
  cases hcs : candidateShape t s.startPos pos c with
  | some sh0 => simp
  | none => simp

/-- Witness for C9: starting a gesture at (10,10) with the rectangle
tool selected and then switching to the circle tool and the color
#00FF00 before pointer-up at (16,18) commits a circle in the new color,
centered at the recorded start position. -/
theorem tool_color_read_at_pointer_up_witness :
    (handleMouseUp false (setCurrentColor (setCurrentTool drawingState Tool.circle) "#00FF00")
        ⟨16, 18⟩).annotations =
      [Shape.circle 10 10
        (Real.sqrt (((16 : ℝ) - 10) ^ 2 + ((18 : ℝ) - 10) ^ 2)) "#00FF00"] := by
  have h := tool_color_read_at_pointer_up drawingState Tool.circle "#00FF00"
    ⟨16, 18⟩ ⟨0, 0⟩ rfl
  rw [h.2.2.2]
  have hcond : Real.sqrt (((⟨16, 18⟩ : Pos).x - drawingState.startPos.x) ^ 2 +
      ((⟨16, 18⟩ : Pos).y - drawingState.startPos.y) ^ 2) > 5 := by
    simp only [drawingState]
    rw [show ((⟨16, 18⟩ : Pos).x - (⟨10, 10⟩ : Pos).x) ^ 2 +
        ((⟨16, 18⟩ : Pos).y - (⟨10, 10⟩ : Pos).y) ^ 2 = 10 ^ 2 from by norm_num]
    rw [Real.sqrt_sq (by norm_num : (0 : ℝ) ≤ 10)]
    norm_num
  simp only [candidateShape]
  rw [if_pos hcond]
  simp only [Option.toList, List.nil_append, drawingState]

/-- `handleUndo` always leaves the shape list equal to `dropLast` of the
previous list (a no-op drop on the empty list). -/
theorem handleUndo_annotations (s : EditorState) :
    (handleUndo s).annotations = s.annotations.dropLast := by
  simp only [handleUndo]
  split
  · rfl
  · rename_i hlen
    have h : s.annotations = [] := by
      simpa [List.length_eq_zero] using hlen
    rw [h]
    rfl

/-- C6: undo removes exactly the last element of a non-empty shape list
and is a no-op on the empty list; saving with shapes [A,B,C], undoing
once and saving again hands the callback an annotation record whose
shapes are exactly [A,B] in order. -/
theorem undo_removes_last :
    (∀ s : EditorState, (handleUndo s).annotations = s.annotations.dropLast) ∧
    (∀ s : EditorState, s.annotations = [] → handleUndo s = s) ∧
    (∀ (s : EditorState) (A B C : Shape) (cs : CanvasSize) (ts url : String),
        s.annotations = [A, B, C] → cs.width ≠ 0 → cs.height ≠ 0 →
        1000 ≤ url.length →
        (handleSave s true cs ts url).2 =
          SaveResult.saved ⟨[A, B, C], ts, cs, 3⟩ url ∧
        (handleSave (handleUndo s) true cs ts url).2 =
          SaveResult.saved ⟨[A, B], ts, cs, 2⟩ url) := by
  refine ⟨handleUndo_annotations, ?_, ?_⟩
  · intro s h
    simp [handleUndo, h]
  · intro s A B C cs ts url hs hw hh hurl
    have h2 : ¬ (cs.width = 0 ∨ cs.height = 0) := by simp [hw, hh]
    have h3 : ¬ (url.length < 1000) := not_lt.mpr hurl
    constructor
    · have h1 : ¬ (true = false ∨ s.annotations.length = 0) := by simp [hs]
      simp only [handleSave, if_neg h1, if_neg h2, if_neg h3]
      simp [hs]
    · have hu : (handleUndo s).annotations = [A, B] := by
        rw [handleUndo_annotations, hs]
        rfl
      have h1 : ¬ (true = false ∨ (handleUndo s).annotations.length = 0) := by
        simp [hu]
      simp only [handleSave, if_neg h1, if_neg h2, if_neg h3]
      simp [hu]

/-- The sample data URL has exactly the minimum accepted length. -/
theorem longUrl_length : longUrl.length = 1000 := by
  show (String.mk (List.replicate 1000 'a')).length = 1000
  rw [show (String.mk (List.replicate 1000 'a')).length =
      (List.replicate 1000 'a').length from rfl]
  rw [List.length_replicate]

/-- Witness for C6: with three concrete shapes committed, undoing once
and saving hands the callback exactly the first two shapes in order. -/
theorem undo_removes_last_witness :
    (handleSave (handleUndo undoDemoState) true ⟨800, 600⟩ "ts" longUrl).2 =
      SaveResult.saved ⟨[sampleRect, sampleCircle], "ts", ⟨800, 600⟩, 2⟩ longUrl := by
  exact (undo_removes_last.2.2 undoDemoState sampleRect sampleCircle sampleArrow
    ⟨800, 600⟩ "ts" longUrl rfl (by decide) (by decide)
    (by simp [longUrl_length])).2

/-- C3: with the canvas present, the save callback is invoked exactly
when the shape list is non-empty, the canvas geometry has nonzero width
and height, and the data URL reaches the 1000-byte floor; the callback
receives the current shape list, timestamp, canvas size and data URL;
every rejecting case produces a user-visible alert; and the editor state
is returned unchanged. -/
theorem handleSave_callback_iff (s : EditorState) (cs : CanvasSize) (ts url : String) :
    ((∃ d u, (handleSave s true cs ts url).2 = SaveResult.saved d u) ↔
      (s.annotations ≠ [] ∧ cs.width ≠ 0 ∧ cs.height ≠ 0 ∧ 1000 ≤ url.length)) ∧
    (∀ d u, (handleSave s true cs ts url).2 = SaveResult.saved d u →
      d.shapes = s.annotations ∧ d.timestamp = ts ∧ d.imageSize = cs ∧ u = url) ∧
    ((∃ m, (handleSave s true cs ts url).2 = SaveResult.alert m) ∨
      (∃ d u, (handleSave s true cs ts url).2 = SaveResult.saved d u)) ∧
    (handleSave s true cs ts url).1 = s := by
  by_cases h1 : s.annotations.length = 0
  · have e : handleSave s true cs ts url =
        (s, .alert "Please add some annotations before saving") := by
      simp [handleSave, h1]
    rw [e]
    refine ⟨⟨?_, ?_⟩, ?_, Or.inl ⟨_, rfl⟩, rfl⟩
    · rintro ⟨d, u, hdu⟩
      exact absurd hdu (by simp)
    · rintro ⟨hne, -, -, -⟩
      exact absurd (List.length_eq_zero.mp h1) hne
    · intro d u hdu
      exact absurd hdu (by simp)
  · by_cases h2 : cs.width = 0 ∨ cs.height = 0
    · have e : handleSave s true cs ts url =
          (s, .alert "Canvas is not properly initialized. Please try refreshing the page.") := by
        simp only [handleSave, if_neg (by simp [h1] : ¬ (true = false ∨ s.annotations.length = 0))]
        rw [if_pos h2]
      rw [e]
      refine ⟨⟨?_, ?_⟩, ?_, Or.inl ⟨_, rfl⟩, rfl⟩
      · rintro ⟨d, u, hdu⟩
        exact absurd hdu (by simp)
      · rintro ⟨-, hw, hh, -⟩
        rcases h2 with h2 | h2
        · exact absurd h2 hw
        · exact absurd h2 hh
      · intro d u hdu
        exact absurd hdu (by simp)
    · by_cases h3 : url.length < 1000
      · have e : handleSave s true cs ts url =
            (s, .alert "Error: Canvas image data seems invalid. Please try drawing some annotations and try again.") := by
          simp only [handleSave,
            if_neg (by simp [h1] : ¬ (true = false ∨ s.annotations.length = 0)),
            if_neg h2]
          rw [if_pos h3]
        rw [e]
        refine ⟨⟨?_, ?_⟩, ?_, Or.inl ⟨_, rfl⟩, rfl⟩
        · rintro ⟨d, u, hdu⟩
          exact absurd hdu (by simp)
        · rintro ⟨-, -, -, hlen⟩
          exact absurd h3 (not_lt.mpr hlen)
        · intro d u hdu
          exact absurd hdu (by simp)
      · have e : handleSave s true cs ts url =
            (s, .saved ⟨s.annotations, ts, cs, s.annotations.length⟩ url) := by
          simp only [handleSave,
            if_neg (by simp [h1] : ¬ (true = false ∨ s.annotations.length = 0)),
            if_neg h2, if_neg h3]
        rw [e]
        rw [not_or] at h2
        refine ⟨⟨?_, ?_⟩, ?_, Or.inr ⟨_, _, rfl⟩, rfl⟩
        · intro _
          exact ⟨fun hnil => h1 (by rw [hnil]; rfl), h2.1, h2.2, not_lt.mp h3⟩
        · intro _
          exact ⟨_, _, rfl⟩
        · intro d u hdu
          injection hdu with hd hu
          subst hd
          subst hu
          exact ⟨rfl, rfl, rfl, rfl⟩

/-- A concrete successful save: the save-ready state with a valid canvas
size and a 1000-byte data URL hands the callback the expected record. -/
theorem handleSave_saveReady :
    handleSave saveReadyState true ⟨800, 600⟩ "ts" longUrl =
      (saveReadyState, .saved ⟨[sampleRect], "ts", ⟨800, 600⟩, 1⟩ longUrl) := by
  have h1 : ¬ (true = false ∨ saveReadyState.annotations.length = 0) := by
    simp [saveReadyState]
  have h2 : ¬ ((⟨800, 600⟩ : CanvasSize).width = 0 ∨
      (⟨800, 600⟩ : CanvasSize).height = 0) := by
    decide
  have h3 : ¬ (longUrl.length < 1000) := by simp [longUrl_length]
  simp only [handleSave, if_neg h1, if_neg h2, if_neg h3]
  simp [saveReadyState]

/-- Witness for C3: at the concrete save-ready state the save goes
through — the saved-record conjunct of the theorem applied to the
concrete successful save — and the state is returned unchanged. -/
theorem handleSave_callback_iff_witness :
    ((AnnotationData.mk [sampleRect] "ts" ⟨800, 600⟩ 1).shapes =
      saveReadyState.annotations) ∧
    (handleSave saveReadyState true ⟨800, 600⟩ "ts" longUrl).1 = saveReadyState := by
  have h := handleSave_callback_iff saveReadyState ⟨800, 600⟩ "ts" longUrl
  refine ⟨?_, h.2.2.2⟩
  exact (h.2.1 ⟨[sampleRect], "ts", ⟨800, 600⟩, 1⟩ longUrl
    (by rw [handleSave_saveReady])).1

/-- C10: every annotation record handed to the save callback carries a
`totalAnnotations` field equal to the length of its `shapes` list. -/
theorem totalAnnotations_eq_shapes_length (s : EditorState) (hasCanvas : Bool)
    (cs : CanvasSize) (ts url : String) (d : AnnotationData) (u : String)
    (h : (handleSave s hasCanvas cs ts url).2 = SaveResult.saved d u) :
    d.totalAnnotations = d.shapes.length := by
  simp only [handleSave] at h
  split at h
  · exact absurd h (by simp)
  · split at h
    · exact absurd h (by simp)
    · split at h
      · exact absurd h (by simp)
      · injection h with hd hu
        subst hd
        rfl

/-- Witness for C10: the concrete successful save carries
`totalAnnotations = 1 = length of its one-shape list`. -/
theorem totalAnnotations_eq_shapes_length_witness :
    (AnnotationData.mk [sampleRect] "ts" ⟨800, 600⟩ 1).totalAnnotations =
      (AnnotationData.mk [sampleRect] "ts" ⟨800, 600⟩ 1).shapes.length := by
  exact totalAnnotations_eq_shapes_length saveReadyState true ⟨800, 600⟩ "ts" longUrl
    ⟨[sampleRect], "ts", ⟨800, 600⟩, 1⟩ longUrl (by rw [handleSave_saveReady])

/-- `hasFillOp` distributes over list append as a boolean or. -/
theorem hasFillOp_append (l1 l2 : List DrawOp) :
    hasFillOp (l1 ++ l2) = (hasFillOp l1 || hasFillOp l2) := by
  simp [hasFillOp, List.any_append]

/-- No per-shape stroke sequence contains a `fill`. -/
theorem hasFillOp_shapeOps (sh : Shape) : hasFillOp (shapeOps sh) = false := by
  cases sh <;> rfl

/-- No concatenation of per-shape stroke sequences contains a `fill`. -/
theorem hasFillOp_flatMap (shapes : List Shape) :
    hasFillOp (shapes.flatMap shapeOps) = false := by
  induction shapes with
  | nil => rfl
  | cons sh rest ih =>
      rw [show (sh :: rest).flatMap shapeOps =
          shapeOps sh ++ rest.flatMap shapeOps from rfl]
      rw [hasFillOp_append, hasFillOp_shapeOps sh, ih]
      rfl

/-- C8: the renderer is a deterministic function of the canvas size, base
image and shape list (equal inputs give the identical operation
sequence); it clears, draws the base image, then emits each shape's
stroke sequence in list order; each shape is stroked with its own color,
3px line width, round caps and joins; and no `fill` operation is ever
emitted. -/
theorem drawCanvas_deterministic_stroke_order :
    (∀ (cs cs' : CanvasSize) (img img' : Img) (shapes shapes' : List Shape),
        cs = cs' → img = img' → shapes = shapes' →
        drawCanvas cs img shapes = drawCanvas cs' img' shapes') ∧
    (∀ (cs : CanvasSize) (img : Img) (shapes : List Shape),
        drawCanvas cs img shapes =
          DrawOp.setCanvasSize cs.width cs.height ::
          DrawOp.clearRect 0 0 (cs.width : ℝ) (cs.height : ℝ) ::
          DrawOp.drawImage img 0 0 (cs.width : ℝ) (cs.height : ℝ) ::
          shapes.flatMap shapeOps) ∧
    (∀ sh : Shape,
        shapeOps sh =
          [DrawOp.setStrokeStyle sh.color, DrawOp.setLineWidth 3,
           DrawOp.setLineCap "round", DrawOp.setLineJoin "round",
           DrawOp.beginPath] ++ pathOps sh ++ [DrawOp.stroke]) ∧
    (∀ (cs : CanvasSize) (img : Img) (shapes : List Shape),
        hasFillOp (drawCanvas cs img shapes) = false) := by
  refine ⟨?_, fun _ _ _ => rfl, fun _ => rfl, ?_⟩
  · intro cs cs' img img' shapes shapes' h1 h2 h3
    rw [h1, h2, h3]
  · intro cs img shapes
    show hasFillOp (shapes.flatMap shapeOps) = false
    exact hasFillOp_flatMap shapes

/-- Witness for C8: rendering a concrete scene twice from identical
inputs yields the identical operation sequence. -/
theorem drawCanvas_deterministic_stroke_order_witness :
    drawCanvas ⟨800, 600⟩ ⟨"base"⟩ [sampleRect] =
      drawCanvas ⟨800, 600⟩ ⟨"base"⟩ [sampleRect] :=
  drawCanvas_deterministic_stroke_order.1 ⟨800, 600⟩ ⟨800, 600⟩ ⟨"base"⟩ ⟨"base"⟩
    [sampleRect] [sampleRect] rfl rfl rfl

/-- The two arrowhead segments always have Euclidean length 15. -/
theorem sqrt_head_length (a : ℝ) :
    Real.sqrt ((15 * Real.cos a) ^ 2 + (15 * Real.sin a) ^ 2) = 15 := by
  have h : (15 * Real.cos a) ^ 2 + (15 * Real.sin a) ^ 2 = 15 ^ 2 := by
    have hsc := Real.sin_sq_add_cos_sq a
    nlinarith [hsc]
  rw [h, Real.sqrt_sq (by norm_num : (0 : ℝ) ≤ 15)]

/-- C5: the renderer strokes an arrow as the segment from start to end
followed by two arrowhead segments, both starting at the end point, with
direction offsets of −π/6 and +π/6 from the line's angle and length 15;
in particular for start (0,0) and end (100,0) the head points are
(100 − 15·(√3/2), ±15/2) — two 15px segments at exactly ±30° from the
horizontal, originating at (100,0). -/
theorem arrow_arrowheads_fifteen_thirty (startX startY endX endY : ℝ) (c : String) :
    (pathOps (Shape.arrow startX startY endX endY c) =
      [DrawOp.moveTo startX startY, DrawOp.lineTo endX endY,
       DrawOp.moveTo endX endY,
       DrawOp.lineTo
         (endX - 15 * Real.cos (atan2 (endY - startY) (endX - startX) - Real.pi / 6))
         (endY - 15 * Real.sin (atan2 (endY - startY) (endX - startX) - Real.pi / 6)),
       DrawOp.moveTo endX endY,
       DrawOp.lineTo
         (endX - 15 * Real.cos (atan2 (endY - startY) (endX - startX) + Real.pi / 6))
         (endY - 15 * Real.sin (atan2 (endY - startY) (endX - startX) + Real.pi / 6))]) ∧
    (Real.sqrt
        ((endX - (endX -
            15 * Real.cos (atan2 (endY - startY) (endX - startX) - Real.pi / 6))) ^ 2 +
         (endY - (endY -
            15 * Real.sin (atan2 (endY - startY) (endX - startX) - Real.pi / 6))) ^ 2) = 15) ∧
    (Real.sqrt
        ((endX - (endX -
            15 * Real.cos (atan2 (endY - startY) (endX - startX) + Real.pi / 6))) ^ 2 +
         (endY - (endY -
            15 * Real.sin (atan2 (endY - startY) (endX - startX) + Real.pi / 6))) ^ 2) = 15) ∧
    (pathOps (Shape.arrow 0 0 100 0 c) =
      [DrawOp.moveTo 0 0, DrawOp.lineTo 100 0,
       DrawOp.moveTo 100 0,
       DrawOp.lineTo (100 - 15 * (Real.sqrt 3 / 2)) (15 / 2),
       DrawOp.moveTo 100 0,
       DrawOp.lineTo (100 - 15 * (Real.sqrt 3 / 2)) (-(15 / 2))]) := by
  refine ⟨rfl, ?_, ?_, ?_⟩
  · rw [sub_sub_cancel, sub_sub_cancel]
    exact sqrt_head_length _
  · rw [sub_sub_cancel, sub_sub_cancel]
    exact sqrt_head_length _
  · have hang : atan2 ((0 : ℝ) - 0) ((100 : ℝ) - 0) = 0 := by
      rw [show (0 : ℝ) - 0 = 0 by norm_num, show (100 : ℝ) - 0 = 100 by norm_num]
      show Complex.arg ⟨100, 0⟩ = 0
      rw [show (⟨100, 0⟩ : ℂ) = ((100 : ℝ) : ℂ) from rfl]
      exact Complex.arg_ofReal_of_nonneg (by norm_num)
    simp only [pathOps]
    rw [hang]
    rw [zero_sub, Real.cos_neg, Real.cos_pi_div_six, Real.sin_neg, Real.sin_pi_div_six]
    rw [zero_add, Real.cos_pi_div_six, Real.sin_pi_div_six]
    norm_num
